import Mathlib

/-
  Shallow embedding of the stockScanner repository's algorithmic core:
    - src/analyzer.py            (breakout detector, consolidated)
    - src/backTesting/analyzer.py (breakout detector, backtest variant)
    - src/backTesting/manager.py (position simulator)
    - src/config.py              (constants)

  Conventions of the embedding:
    - pandas cells are Option Rat: none models NaN (and Python None);
    - dates are integers (day numbers); pandas Timestamp ordering maps to
      integer ordering, and timedelta(days = d) to integer addition;
    - pandas aggregation (max over a row, rolling mean/max) skips missing
      values; min_periods counts the non-missing values in the window;
    - a scalar comparison against a missing value is False, as in pandas;
    - Python dict-based records become structures with the source's keys;
      in-place mutation of a dict becomes functional record update, and a
      function that mutates its argument returns the updated value.
  The Series invariant of the data model (rows sorted strictly increasing
  by date) is presupposed, on which pandas' stable sort_values('Date') is
  the identity, so the embedding operates on the rows in the given order.
-/

namespace StockScanner

/-- Constant ATR_MULTIPLE from src/config.py. -/
def ATR_MULTIPLE : ℚ := 2

/-- Constant TAKE_PROFIT_MULTIPLE from src/config.py. -/
def TAKE_PROFIT_MULTIPLE : ℚ := 4

/-- Constant EXPIRY_DAYS from src/config.py. -/
def EXPIRY_DAYS : ℤ := 10

/-- Constant DEFAULT_ATR_PERIOD from src/config.py. -/
def DEFAULT_ATR_PERIOD : ℕ := 20

/-- Constant DEFAULT_VOLUME_PERIOD from src/config.py. -/
def DEFAULT_VOLUME_PERIOD : ℕ := 20

/-- Position status; the Python code uses the strings "OPEN", "STOP LOSS",
"TAKE PROFIT", "EXIT TIME". -/
inductive Status where
  | OPEN
  | STOP_LOSS
  | TAKE_PROFIT
  | EXIT_TIME
deriving DecidableEq

/-- One row of the simulator's price series: the fields of df read by
simulate_trades in src/backTesting/manager.py (Date, Low, High, Close). -/
structure SBar where
  date : ℤ
  low : ℚ
  high : ℚ
  close : ℚ
deriving DecidableEq

/-- A signal dict as built by analyze_stock in src/analyzer.py.  The field
idx records the bar index of the signal; the Python dict identifies the bar
by its date, which under the Series invariant (strictly increasing dates)
determines the index uniquely.  atr is Option valued because
create_positions_from_signals guards against a missing ATR. -/
structure Signal where
  idx : ℕ
  date : ℤ
  action : String
  price : ℚ
  atr : Option ℚ
  breakout_high : ℚ
  volume : ℚ
  avg_volume_threshold : ℚ
  volume_quot : ℚ
deriving DecidableEq

/-- A position dict as built by create_positions_from_signals in
src/backTesting/manager.py. -/
structure Position where
  entry_date : ℤ
  entry_price : ℚ
  max_price : ℚ
  stop_loss : ℚ
  take_profit : ℚ
  expiry_date : ℤ
  status : Status
  exit_date : Option ℤ
  exit_price : Option ℚ
  pct_change : Option ℚ
  atr : ℚ
  market : String
deriving DecidableEq

/-- close_position from src/backTesting/manager.py: sets status, exit_date,
exit_price and pct_change on the position dict. -/
def close_position (position : Position) (status : Status) (exit_date : ℤ)
    (exit_price : ℚ) : Position :=
  { position with
    status := status
    exit_date := some exit_date
    exit_price := some exit_price
    pct_change := some ((exit_price - position.entry_price) / position.entry_price * 100) }

/-- The trailing-stop update block of simulate_trades (manager.py lines
152-155): if high > pos["max_price"], set max_price to high and stop_loss to
max_price - ATR_MULTIPLE * atr. -/
def trailing_update (row : SBar) (pos : Position) : Position :=
  if row.high > pos.max_price then
    { pos with max_price := row.high, stop_loss := row.high - ATR_MULTIPLE * pos.atr }
  else pos

/-- The body of the inner loop of simulate_trades for an OPEN position:
trailing-stop update, then the exit checks in source order (time expiry,
stop loss, take profit). -/
def step_open (row : SBar) (pos : Position) : Position :=
  let pos := trailing_update row pos
  if row.date > pos.expiry_date then
    close_position pos .EXIT_TIME row.date row.close
  else if row.low ≤ pos.stop_loss then
    close_position pos .STOP_LOSS row.date pos.stop_loss
  else if row.high ≥ pos.take_profit then
    close_position pos .TAKE_PROFIT row.date pos.take_profit
  else pos

/-- The inner loop body of simulate_trades including the guard
`if pos["status"] != "OPEN": continue`. -/
def step (row : SBar) (pos : Position) : Position :=
  if pos.status = .OPEN then step_open row pos else pos

/-- simulate_trades from src/backTesting/manager.py: iterate over all rows
of df in order; for each row, update every position in place. -/
def simulate_trades (df : List SBar) (positions : List Position) : List Position :=
  df.foldl (fun ps row => ps.map (step row)) positions

/-- create_positions_from_signals from src/backTesting/manager.py: one OPEN
position per BUY signal with a present ATR; signals with missing ATR are
skipped. -/
def create_positions_from_signals (signals : List Signal) (market : String) :
    List Position :=
  signals.filterMap fun signal =>
    if signal.action = "BUY" then
      match signal.atr with
      | none => none
      | some atr =>
        some
          { entry_date := signal.date
            entry_price := signal.price
            max_price := signal.price
            stop_loss := signal.price - ATR_MULTIPLE * atr
            take_profit := signal.price + TAKE_PROFIT_MULTIPLE * atr
            expiry_date := signal.date + EXPIRY_DAYS
            status := .OPEN
            exit_date := none
            exit_price := none
            pct_change := none
            atr := atr
            market := market }
    else none

/-- Concrete OPEN position used as evaluation input: entered at day 10 at
price 100 with atr 5, hence stop_loss 90, take_profit 120, expiry day 20. -/
def open_pos : Position :=
  { entry_date := 10, entry_price := 100, max_price := 100, stop_loss := 90
    take_profit := 120, expiry_date := 20, status := .OPEN
    exit_date := none, exit_price := none, pct_change := none
    atr := 5, market := "USA" }

/-- Concrete closed position used as evaluation input. -/
def closed_pos : Position :=
  { entry_date := 0, entry_price := 100, max_price := 110, stop_loss := 100
    take_profit := 120, expiry_date := 10, status := .TAKE_PROFIT
    exit_date := some 5, exit_price := some 120, pct_change := some 20
    atr := 5, market := "USA" }

/-- Concrete bar at day 10. -/
def bar_at_entry : SBar := ⟨10, 99, 101, 100⟩

/-- Concrete bar at day 0, before open_pos's entry, whose low 80 is under
open_pos's initial stop 90. -/
def bar_before_entry : SBar := ⟨0, 80, 85, 85⟩

/-- Concrete bar at day 30 on which, against open_pos, all three exit
conditions hold at once: 30 > expiry 20; after the trailing update the stop
is 120 and low 80 is below it; high 130 is above take_profit 120. -/
def all_exits_bar : SBar := ⟨30, 80, 130, 100⟩

/-- Concrete BUY signal dated day 10, as analyze_stock would emit it. -/
def late_signal : Signal :=
  { idx := 1, date := 10, action := "BUY", price := 100, atr := some 5
    breakout_high := 99, volume := 1000, avg_volume_threshold := 500
    volume_quot := 2 }

lemma trailing_update_expiry (row : SBar) (pos : Position) :
    (trailing_update row pos).expiry_date = pos.expiry_date := by
  unfold trailing_update; split <;> rfl

lemma step_open_fields (row : SBar) (pos : Position) :
    (step_open row pos).stop_loss = (trailing_update row pos).stop_loss ∧
    (step_open row pos).max_price = (trailing_update row pos).max_price ∧
    (step_open row pos).atr = (trailing_update row pos).atr := by
  simp only [step_open, close_position]
  split_ifs <;> exact ⟨rfl, rfl, rfl⟩

/-- Step-level facts behind the trailing-stop invariant: atr is fixed, the
stop equation is preserved, max_price and stop_loss never decrease, and
both are unchanged on a bar whose high does not exceed max_price. -/
lemma step_trailing_facts (row : SBar) (pos : Position)
    (hinv : pos.stop_loss = pos.max_price - ATR_MULTIPLE * pos.atr) :
    (step row pos).atr = pos.atr ∧
    (step row pos).stop_loss = (step row pos).max_price - ATR_MULTIPLE * (step row pos).atr ∧
    pos.max_price ≤ (step row pos).max_price ∧
    pos.stop_loss ≤ (step row pos).stop_loss ∧
    (¬ pos.max_price < row.high →
      (step row pos).stop_loss = pos.stop_loss ∧ (step row pos).max_price = pos.max_price) := by
  by_cases hst : pos.status = .OPEN
  · have hflds := step_open_fields row pos
    have hstep : step row pos = step_open row pos := by simp [step, hst]
    rw [hstep]
    rcases hflds with ⟨h1, h2, h3⟩
    rw [h1, h2, h3]
    by_cases hup : pos.max_price < row.high
    · have htu : trailing_update row pos =
          { pos with max_price := row.high,
                     stop_loss := row.high - ATR_MULTIPLE * pos.atr } := by
        unfold trailing_update; rw [if_pos hup]
      rw [htu]
      refine ⟨rfl, rfl, le_of_lt hup, ?_, fun h => absurd hup h⟩
      rw [hinv]
      exact sub_le_sub_right (le_of_lt hup) _
    · have htu : trailing_update row pos = pos := by
        unfold trailing_update; rw [if_neg hup]
      rw [htu]
      exact ⟨rfl, hinv, le_refl _, le_refl _, fun _ => ⟨rfl, rfl⟩⟩
  · have hstep : step row pos = pos := by simp [step, hst]
    rw [hstep]
    exact ⟨rfl, hinv, le_refl _, le_refl _, fun _ => ⟨rfl, rfl⟩⟩

lemma simulate_trades_singleton (df : List SBar) (pos : Position) :
    simulate_trades df [pos] = [df.foldl (fun q row => step row q) pos] := by
  induction df generalizing pos with
  | nil => rfl
  | cons row rest ih =>
    have h : simulate_trades (row :: rest) [pos] = simulate_trades rest [step row pos] := rfl
    rw [h, ih]
    rfl

lemma foldl_step_trailing (df : List SBar) : ∀ (pos : Position),
    pos.stop_loss = pos.max_price - ATR_MULTIPLE * pos.atr →
    (df.foldl (fun q row => step row q) pos).stop_loss
        = (df.foldl (fun q row => step row q) pos).max_price
            - ATR_MULTIPLE * (df.foldl (fun q row => step row q) pos).atr ∧
    pos.stop_loss ≤ (df.foldl (fun q row => step row q) pos).stop_loss := by
  induction df with
  | nil => exact fun pos hinv => ⟨hinv, le_refl _⟩
  | cons row rest ih =>
    intro pos hinv
    have hstep := step_trailing_facts row pos hinv
    have hrest := ih (step row pos) hstep.2.1
    exact ⟨hrest.1, le_trans hstep.2.2.2.1 hrest.2⟩

/-- C1: within one bar an OPEN position's exit conditions are evaluated in
the fixed order time-expiry (close at the bar's close, status EXIT_TIME),
then stop-loss (close at the stop price, status STOP_LOSS), then
take-profit (close at the take-profit price, status TAKE_PROFIT); the first
satisfied condition wins, so a bar satisfying all three yields EXIT_TIME.
The stop-loss condition reads the stop after the bar's trailing update. -/
theorem exit_priority_order (row : SBar) (pos : Position)
    (hopen : pos.status = .OPEN) :
    (row.date > pos.expiry_date →
      step row pos =
        close_position (trailing_update row pos) .EXIT_TIME row.date row.close) ∧
    (¬ row.date > pos.expiry_date →
      row.low ≤ (trailing_update row pos).stop_loss →
      step row pos =
        close_position (trailing_update row pos) .STOP_LOSS row.date
          (trailing_update row pos).stop_loss) ∧
    (¬ row.date > pos.expiry_date →
      ¬ row.low ≤ (trailing_update row pos).stop_loss →
      row.high ≥ (trailing_update row pos).take_profit →
      step row pos =
        close_position (trailing_update row pos) .TAKE_PROFIT row.date
          (trailing_update row pos).take_profit) := by
  have hstep : step row pos =
      (if row.date > (trailing_update row pos).expiry_date then
        close_position (trailing_update row pos) .EXIT_TIME row.date row.close
      else if row.low ≤ (trailing_update row pos).stop_loss then
        close_position (trailing_update row pos) .STOP_LOSS row.date
          (trailing_update row pos).stop_loss
      else if row.high ≥ (trailing_update row pos).take_profit then
        close_position (trailing_update row pos) .TAKE_PROFIT row.date
          (trailing_update row pos).take_profit
      else trailing_update row pos) := by
    simp [step, step_open, hopen]
  rw [trailing_update_expiry] at hstep
  refine ⟨fun h1 => ?_, fun h1 h2 => ?_, fun h1 h2 h3 => ?_⟩
  · rw [hstep, if_pos h1]
  · rw [hstep, if_neg h1, if_pos h2]
  · rw [hstep, if_neg h1, if_neg h2, if_pos h3]

/-- C1 witness: on the concrete bar all_exits_bar all three exit conditions
hold against open_pos, and the result is the EXIT_TIME close at the bar's
close price. -/
theorem exit_priority_order_witness :
    (all_exits_bar.date > open_pos.expiry_date ∧
     all_exits_bar.low ≤ (trailing_update all_exits_bar open_pos).stop_loss ∧
     all_exits_bar.high ≥ (trailing_update all_exits_bar open_pos).take_profit) ∧
    step all_exits_bar open_pos =
      close_position (trailing_update all_exits_bar open_pos) .EXIT_TIME
        all_exits_bar.date all_exits_bar.close :=
  ⟨by norm_num [all_exits_bar, open_pos, trailing_update, ATR_MULTIPLE],
   (exit_priority_order all_exits_bar open_pos rfl).1
     (by norm_num [all_exits_bar, open_pos])⟩

/-- C2: positions are created with max_price equal to the entry price and
stop_loss equal to max_price minus ATR_MULTIPLE times atr; every simulation
step keeps atr fixed, preserves that stop equation, never lowers max_price
or stop_loss, leaves both unchanged on a bar whose high does not exceed
max_price, and over a whole simulated series the stop_loss never ends lower
than it started. -/
theorem trailing_stop_invariant :
    (∀ (signals : List Signal) (market : String) (p : Position),
      p ∈ create_positions_from_signals signals market →
      p.max_price = p.entry_price ∧
      p.stop_loss = p.max_price - ATR_MULTIPLE * p.atr) ∧
    (∀ (row : SBar) (pos : Position),
      pos.stop_loss = pos.max_price - ATR_MULTIPLE * pos.atr →
      (step row pos).atr = pos.atr ∧
      (step row pos).stop_loss
          = (step row pos).max_price - ATR_MULTIPLE * (step row pos).atr ∧
      pos.max_price ≤ (step row pos).max_price ∧
      pos.stop_loss ≤ (step row pos).stop_loss ∧
      (¬ pos.max_price < row.high →
        (step row pos).stop_loss = pos.stop_loss ∧
        (step row pos).max_price = pos.max_price)) ∧
    (∀ (df : List SBar) (pos : Position),
      pos.stop_loss = pos.max_price - ATR_MULTIPLE * pos.atr →
      ∃ q, simulate_trades df [pos] = [q] ∧
        q.stop_loss = q.max_price - ATR_MULTIPLE * q.atr ∧
        pos.stop_loss ≤ q.stop_loss) := by
  refine ⟨?_, step_trailing_facts, ?_⟩
  · intro signals market p hp
    rw [create_positions_from_signals, List.mem_filterMap] at hp
    obtain ⟨s, _, hs⟩ := hp
    by_cases hact : s.action = "BUY"
    · rw [if_pos hact] at hs
      cases hatr : s.atr with
      | none => rw [hatr] at hs; cases hs
      | some a =>
        rw [hatr] at hs
        cases hs
        exact ⟨rfl, rfl⟩
    · rw [if_neg hact] at hs; cases hs
  · intro df pos hinv
    refine ⟨df.foldl (fun q row => step row q) pos, simulate_trades_singleton df pos, ?_⟩
    exact foldl_step_trailing df pos hinv

/-- C2 witness: open_pos satisfies the stop equation and simulating it over
one concrete bar preserves it without lowering the stop. -/
theorem trailing_stop_invariant_witness :
    ∃ q, simulate_trades [bar_at_entry] [open_pos] = [q] ∧
      q.stop_loss = q.max_price - ATR_MULTIPLE * q.atr ∧
      open_pos.stop_loss ≤ q.stop_loss :=
  trailing_stop_invariant.2.2 [bar_at_entry] open_pos
    (by norm_num [open_pos, ATR_MULTIPLE])

/-- C5: evaluation of the code at a concrete input.  A BUY signal dated day
10 yields a position entered on day 10, yet simulate_trades replays the
series from its first row, so the bar dated day 0 (strictly before entry),
whose low 80 is at or below the initial stop 90, closes the position as
STOP_LOSS with exit_date day 0 — a bar strictly before the entry date has
mutated the position, contradicting the claim. -/
theorem pre_entry_bar_mutates_position :
    (create_positions_from_signals [late_signal] "USA").map Position.entry_date = [10] ∧
    (simulate_trades [bar_before_entry, bar_at_entry]
        (create_positions_from_signals [late_signal] "USA")).map
      (fun p => (p.status, p.exit_date)) = [(Status.STOP_LOSS, some 0)] ∧
    bar_before_entry.date < 10 := by
  norm_num [create_positions_from_signals, simulate_trades, step, step_open,
    trailing_update, close_position, late_signal, bar_before_entry,
    bar_at_entry, ATR_MULTIPLE, TAKE_PROFIT_MULTIPLE, EXPIRY_DAYS,
    List.filterMap_cons, List.filterMap_nil]
  decide

/-- C6: a position whose status is not OPEN is left completely unchanged by
any further bar, both by a single step and by a whole simulate_trades run;
in particular it never returns to OPEN and no field is altered. -/
theorem closed_positions_frozen :
    (∀ (row : SBar) (pos : Position), pos.status ≠ .OPEN → step row pos = pos) ∧
    (∀ (df : List SBar) (positions : List Position),
      (∀ p ∈ positions, p.status ≠ .OPEN) →
      simulate_trades df positions = positions) := by
  have h1 : ∀ (row : SBar) (pos : Position), pos.status ≠ .OPEN → step row pos = pos := by
    intro row pos h
    simp [step, h]
  refine ⟨h1, ?_⟩
  intro df
  induction df with
  | nil => intro ps _; rfl
  | cons row rest ih =>
    intro ps hps
    have hmap : ps.map (step row) = ps := by
      have hcongr : ps.map (step row) = ps.map id :=
        List.map_congr_left (fun p hp => h1 row p (hps p hp))
      rw [hcongr, List.map_id]
    have h : simulate_trades (row :: rest) ps = simulate_trades rest (ps.map (step row)) := rfl
    rw [h, hmap]
    exact ih ps hps

/-- C6 witness: a concrete closed position is untouched by a further bar. -/
theorem closed_positions_frozen_witness :
    step bar_at_entry closed_pos = closed_pos :=
  closed_positions_frozen.1 bar_at_entry closed_pos (by decide)

/-- C9 counterexample: on the empty series with one OPEN position,
simulate_trades neither raises nor reports any error; it returns normally
with the position unchanged and still OPEN, refuting the claim that the
simulator fails on an empty series. -/
theorem simulate_trades_empty_counterexample :
    simulate_trades [] [open_pos] = [open_pos] ∧ open_pos.status = .OPEN :=
  ⟨rfl, rfl⟩

/-- C9 amended: the position simulator never raises an error: on an empty
series it returns with every position unchanged (in particular still OPEN),
and on any series whatever — including one with no rows at or after a
position's entry date — it returns normally with exactly one result per
position rather than failing.  (Bars before a position's entry date may
still mutate it; that behaviour is the subject of the C5 finding, not of
this claim.) -/
theorem simulate_trades_never_fails :
    (∀ positions : List Position, simulate_trades [] positions = positions) ∧
    (∀ (df : List SBar) (positions : List Position),
      (simulate_trades df positions).length = positions.length) := by
  refine ⟨fun positions => rfl, ?_⟩
  intro df
  induction df with
  | nil => intro positions; rfl
  | cons row rest ih =>
    intro positions
    have h : simulate_trades (row :: rest) positions
        = simulate_trades rest (positions.map (step row)) := rfl
    rw [h, ih, List.length_map]

/-- One pandas cell; none models NaN (missing data). -/
abbrev Cell := Option ℚ

/-- Value of a column at a row index; out-of-range reads as missing. -/
def cellAt (xs : List Cell) (i : ℕ) : Cell := xs.getD i none

/-- NaN-propagating difference of two cells. -/
def cellSub (a b : Cell) : Cell :=
  match a, b with
  | some x, some y => some (x - y)
  | _, _ => none

/-- NaN-propagating absolute difference of two cells (np.abs of a
difference). -/
def cellAbsSub (a b : Cell) : Cell :=
  match a, b with
  | some x, some y => some |x - y|
  | _, _ => none

/-- Row-wise maximum of three cells with pandas skipna semantics
(DataFrame.max(axis=1)): missing entries are ignored; the result is missing
only when all three are. -/
def maxSkipna (a b c : Cell) : Cell := ([a, b, c].filterMap id).max?

/-- Series.shift() read at index i: the previous row's value, missing at
the first row. -/
def shifted (xs : List Cell) (i : ℕ) : Cell :=
  if i = 0 then none else cellAt xs (i - 1)

/-- The true-range series of calculate_atr (src/analyzer.py lines 36-40):
row-wise skipna maximum of High-Low, abs(High-Close.shift()) and
abs(Low-Close.shift()). -/
def true_range (high low close : List Cell) (i : ℕ) : Cell :=
  maxSkipna (cellSub (cellAt high i) (cellAt low i))
    (cellAbsSub (cellAt high i) (shifted close i))
    (cellAbsSub (cellAt low i) (shifted close i))

/-- rolling(window = p, min_periods = 1).mean() at index i: mean of the
non-missing values among the last min(i+1, p) entries; missing only when
every entry of the window is missing. -/
def rollingMeanOne (p : ℕ) (f : ℕ → Cell) (i : ℕ) : Cell :=
  let vals := (((List.range (i + 1)).drop (i + 1 - p)).map f).filterMap id
  if vals.length = 0 then none else some (vals.sum / (vals.length : ℚ))

/-- calculate_atr from src/analyzer.py read at index i: 20-bar rolling mean
of true range with min_periods = 1. -/
def calculate_atr (high low close : List Cell) (i : ℕ) : Cell :=
  rollingMeanOne DEFAULT_ATR_PERIOD (true_range high low close) i

/-- The avg_volume series of analyze_stock (src/analyzer.py line 86):
20-bar rolling mean of Volume with min_periods = 1. -/
def avg_volume (volume : List Cell) (i : ℕ) : Cell :=
  rollingMeanOne DEFAULT_VOLUME_PERIOD (cellAt volume) i

/-- The volume_threshold series (src/analyzer.py line 87): avg_volume times
the volume multiplier, missing where avg_volume is. -/
def volume_threshold (volume : List Cell) (m : ℚ) (i : ℕ) : Cell :=
  (avg_volume volume i).map (fun av => av * m)

/-- The high_rolling_max series (src/analyzer.py line 97):
High.rolling(window = breakout_days, min_periods = breakout_days).max()
shifted by one, read at index i: the maximum High over the breakout_days
rows strictly preceding i, missing unless there are breakout_days rows all
with High present. -/
def high_rolling_max (high : List Cell) (bd : ℕ) (i : ℕ) : Cell :=
  let vals := (((List.range i).drop (i - bd)).map (cellAt high)).filterMap id
  if vals.length = bd then vals.max? else none

/-- One iteration of the main analysis loop of analyze_stock
(src/analyzer.py lines 100-116) before the recency check: skip when any of
the five critical values is missing, otherwise emit the signal dict when
close exceeds the prior high and volume exceeds the threshold. -/
def signal_at (high low close volume : List Cell) (dates : List ℤ)
    (m : ℚ) (bd : ℕ) (i : ℕ) : Option Signal :=
  match high_rolling_max high bd i, cellAt close i, cellAt volume i,
      calculate_atr high low close i, volume_threshold volume m i with
  | some high_prev, some close_today, some volume_today, some atr_today,
      some volume_thresh =>
    if close_today > high_prev ∧ volume_today > volume_thresh then
      some
        { idx := i
          date := dates.getD i 0
          action := "BUY"
          price := close_today
          atr := some atr_today
          breakout_high := high_prev
          volume := volume_today
          avg_volume_threshold := volume_thresh
          volume_quot :=
            match avg_volume volume i with
            | some av => if av > 0 then volume_today / av else 0
            | none => 0 }
    else none
  | _, _, _, _, _ => none

/-- The main analysis loop of analyze_stock (src/analyzer.py lines
100-133): scan indices breakout_days..total_days-1 and collect the signals
whose index reaches the recency cutoff. -/
def analyze_signals (high low close volume : List Cell) (dates : List ℤ)
    (m : ℚ) (bd : ℕ) (total_days : ℕ) (cutoff : ℕ) : List Signal :=
  (List.range total_days).filterMap fun i =>
    if i < bd then none
    else
      match signal_at high low close volume dates m bd i with
      | some s => if cutoff ≤ i then some s else none
      | none => none

/-- State of one DataFrame column: absent, present but non-numeric, or
numeric with per-row cells (possibly NaN). -/
inductive Col where
  | missing
  | nonNumeric
  | numeric (cells : List Cell)
deriving DecidableEq

/-- The cells of a column (empty for an absent or non-numeric column; only
read after validation has passed). -/
def Col.cells : Col → List Cell
  | .numeric xs => xs
  | _ => []

/-- A DataFrame as validate_dataframe sees it: a row count, the four
numeric-checked columns and the Date column. -/
structure Frame where
  nrows : ℕ
  high : Col
  low : Col
  close : Col
  volume : Col
  dates : Option (List ℤ)
deriving DecidableEq

/-- validate_dataframe from src/analyzer.py: empty check, required-column
check, then a numeric-dtype check on High, Low, Close, Volume in order.
The isinstance check has no counterpart since the embedding is typed. -/
def validate_dataframe (df : Frame) : Except String Unit :=
  if df.nrows = 0 then .error "DataFrame cannot be empty"
  else if df.high = .missing ∨ df.low = .missing ∨ df.close = .missing ∨
      df.volume = .missing ∨ df.dates = none then
    .error "DataFrame missing required columns"
  else if df.high = .nonNumeric then .error "Column High must be numeric"
  else if df.low = .nonNumeric then .error "Column Low must be numeric"
  else if df.close = .nonNumeric then .error "Column Close must be numeric"
  else if df.volume = .nonNumeric then .error "Column Volume must be numeric"
  else .ok ()

/-- analyze_stock from src/analyzer.py: validation, positivity checks on
the parameters, then the scan with recency cutoff
max(0, total_days - max_days_old) (0 when max_days_old is None).  The scan
operates on the rows in the given order; under the Series invariant
(strictly increasing dates) the source's sort_values('Date') is the
identity. -/
def analyze_stock (df : Frame) (volume_multiplier : ℚ) (breakout_days : ℕ)
    (max_days_old : Option ℕ) : Except String (List Signal) :=
  match validate_dataframe df with
  | .error e => .error e
  | .ok _ =>
    if volume_multiplier ≤ 0 then .error "volume_multiplier must be positive"
    else if breakout_days = 0 then .error "breakout_days must be positive"
    else
      match max_days_old with
      | some k =>
        if k = 0 then .error "max_days_old must be positive or None"
        else
          .ok (analyze_signals df.high.cells df.low.cells df.close.cells
            df.volume.cells (df.dates.getD []) volume_multiplier breakout_days
            df.nrows (df.nrows - k))
      | none =>
        .ok (analyze_signals df.high.cells df.low.cells df.close.cells
          df.volume.cells (df.dates.getD []) volume_multiplier breakout_days
          df.nrows 0)

/-- The invalid-input predicate in the spec's words (sections 4.2 and 7):
the series lacks a required field, is empty, has non-numeric price or
volume data, or a configuration parameter is non-positive, where None is a
valid unbounded value only for max_days_old. -/
def input_invalid (df : Frame) (m : ℚ) (bd : ℕ) (mdo : Option ℕ) : Prop :=
  df.high = .missing ∨ df.low = .missing ∨ df.close = .missing ∨
  df.volume = .missing ∨ df.dates = none ∨ df.nrows = 0 ∨
  df.high = .nonNumeric ∨ df.low = .nonNumeric ∨ df.close = .nonNumeric ∨
  df.volume = .nonNumeric ∨ m ≤ 0 ∨ bd = 0 ∨ mdo = some 0

lemma signal_at_eq_some_iff (high low close volume : List Cell)
    (dates : List ℤ) (m : ℚ) (bd i : ℕ) (s : Signal) :
    signal_at high low close volume dates m bd i = some s ↔
      ∃ b c v a t, high_rolling_max high bd i = some b ∧
        cellAt close i = some c ∧ cellAt volume i = some v ∧
        calculate_atr high low close i = some a ∧
        volume_threshold volume m i = some t ∧ c > b ∧ v > t ∧
        s = { idx := i, date := dates.getD i 0, action := "BUY", price := c,
              atr := some a, breakout_high := b, volume := v,
              avg_volume_threshold := t,
              volume_quot :=
                match avg_volume volume i with
                | some av => if av > 0 then v / av else 0
                | none => 0 } := by
  unfold signal_at
  cases hb : high_rolling_max high bd i with
  | none => simp
  | some b =>
    cases hc : cellAt close i with
    | none => simp
    | some c =>
      cases hv : cellAt volume i with
      | none => simp
      | some v =>
        cases ha : calculate_atr high low close i with
        | none => simp
        | some a =>
          cases ht : volume_threshold volume m i with
          | none => simp
          | some t =>
            dsimp only
            by_cases hcond : c > b ∧ v > t
            · rw [if_pos hcond]
              constructor
              · intro h
                exact ⟨b, c, v, a, t, rfl, rfl, rfl, rfl, rfl, hcond.1,
                  hcond.2, (Option.some.inj h).symm⟩
              · rintro ⟨b', c', v', a', t', hb', hc', hv', ha', ht', h1, h2, hs⟩
                cases Option.some.inj hb'
                cases Option.some.inj hc'
                cases Option.some.inj hv'
                cases Option.some.inj ha'
                cases Option.some.inj ht'
                rw [hs]
            · rw [if_neg hcond]
              constructor
              · intro h; cases h
              · rintro ⟨b', c', v', a', t', hb', hc', hv', ha', ht', h1, h2, hs⟩
                cases Option.some.inj hb'
                cases Option.some.inj hc'
                cases Option.some.inj hv'
                cases Option.some.inj ha'
                cases Option.some.inj ht'
                exact absurd ⟨h1, h2⟩ hcond

lemma mem_analyze_signals (high low close volume : List Cell) (dates : List ℤ)
    (m : ℚ) (bd n cut : ℕ) (s : Signal) :
    s ∈ analyze_signals high low close volume dates m bd n cut ↔
      ∃ i, i < n ∧ bd ≤ i ∧ cut ≤ i ∧
        signal_at high low close volume dates m bd i = some s := by
  unfold analyze_signals
  rw [List.mem_filterMap]
  constructor
  · rintro ⟨i, hin, hf⟩
    rw [List.mem_range] at hin
    by_cases hlt : i < bd
    · rw [if_pos hlt] at hf; cases hf
    · rw [if_neg hlt] at hf
      cases hsig : signal_at high low close volume dates m bd i with
      | none =>
        simp only [hsig] at hf
        exact Option.noConfusion hf
      | some s' =>
        simp only [hsig] at hf
        by_cases hcut : cut ≤ i
        · rw [if_pos hcut] at hf
          cases Option.some.inj hf
          exact ⟨i, hin, le_of_not_lt hlt, hcut, hsig⟩
        · rw [if_neg hcut] at hf; cases hf
  · rintro ⟨i, hin, hbd2, hcut, hsig⟩
    refine ⟨i, List.mem_range.mpr hin, ?_⟩
    rw [if_neg (Nat.not_lt.mpr hbd2)]
    simp only [hsig]
    rw [if_pos hcut]

lemma analyze_signals_cutoff (high low close volume : List Cell)
    (dates : List ℤ) (m : ℚ) (bd n cut : ℕ) :
    analyze_signals high low close volume dates m bd n cut =
      (analyze_signals high low close volume dates m bd n 0).filter
        (fun s => cut ≤ s.idx) := by
  unfold analyze_signals
  rw [List.filter_filterMap]
  apply List.filterMap_congr
  intro i hin
  by_cases hlt : i < bd
  · simp only [if_pos hlt]; rfl
  · simp only [if_neg hlt]
    cases hsig : signal_at high low close volume dates m bd i with
    | none => rfl
    | some s' =>
      dsimp only
      rw [if_pos (Nat.zero_le i)]
      have hidx : s'.idx = i := by
        obtain ⟨b, c, v, a, t, _, _, _, _, _, _, _, hrec⟩ :=
          (signal_at_eq_some_iff high low close volume dates m bd i s').mp hsig
        rw [hrec]
      by_cases hcut : cut ≤ i
      · rw [if_pos hcut]
        simp [Option.filter, hidx, hcut]
      · rw [if_neg hcut]
        simp [Option.filter, hidx, hcut]

/-- C3: the detector's scan emits a BUY signal at bar index i (at or past
breakout_days) exactly when the prior-window high, close, volume, ATR and
volume threshold are all present, the close strictly exceeds the maximum
high over the breakout_days bars strictly preceding i, and the volume
strictly exceeds avg_volume times the multiplier; bars with a missing
critical value are silently skipped. -/
theorem breakout_signal_iff (high low close volume : List Cell)
    (dates : List ℤ) (m : ℚ) (bd i : ℕ) (hbd : bd ≤ i)
    (hi : i < dates.length) :
    (∃ s ∈ analyze_signals high low close volume dates m bd dates.length 0,
        s.idx = i) ↔
      ∃ b c v a t, high_rolling_max high bd i = some b ∧
        cellAt close i = some c ∧ cellAt volume i = some v ∧
        calculate_atr high low close i = some a ∧
        volume_threshold volume m i = some t ∧ c > b ∧ v > t := by
  constructor
  · rintro ⟨s, hs, hidx⟩
    rw [mem_analyze_signals] at hs
    obtain ⟨j, hj, hbdj, hcutj, hsig⟩ := hs
    rw [signal_at_eq_some_iff] at hsig
    obtain ⟨b, c, v, a, t, hb, hc, hv, ha, ht, h1, h2, hrec⟩ := hsig
    have hij : j = i := by rw [← hidx, hrec]
    subst hij
    exact ⟨b, c, v, a, t, hb, hc, hv, ha, ht, h1, h2⟩
  · rintro ⟨b, c, v, a, t, hb, hc, hv, ha, ht, h1, h2⟩
    refine ⟨{ idx := i, date := dates.getD i 0, action := "BUY", price := c,
              atr := some a, breakout_high := b, volume := v,
              avg_volume_threshold := t,
              volume_quot :=
                match avg_volume volume i with
                | some av => if av > 0 then v / av else 0
                | none => 0 }, ?_, rfl⟩
    rw [mem_analyze_signals]
    exact ⟨i, hi, hbd, Nat.zero_le i,
      (signal_at_eq_some_iff high low close volume dates m bd i _).mpr
        ⟨b, c, v, a, t, hb, hc, hv, ha, ht, h1, h2, rfl⟩⟩

/-- C4: with max_days_old = N the detector returns exactly the signals of
the unbounded run whose bar index is at least total_days - N; detection is
unaffected by the bound, and the unbounded result is a superset of every
bounded one. -/
theorem max_days_old_filter (df : Frame) (m : ℚ) (bd N : ℕ) (hN : 0 < N) :
    analyze_stock df m bd (some N) =
      (analyze_stock df m bd none).map
        (List.filter (fun s => df.nrows - N ≤ s.idx)) := by
  unfold analyze_stock
  cases hval : validate_dataframe df with
  | error e => rfl
  | ok u =>
    by_cases hm : m ≤ 0
    · simp only [if_pos hm]; rfl
    · simp only [if_neg hm]
      by_cases hbd : bd = 0
      · simp only [if_pos hbd]; rfl
      · simp only [if_neg hbd]
        rw [if_neg (Nat.pos_iff_ne_zero.mp hN)]
        rw [analyze_signals_cutoff]
        rfl

/-- C8: the detector succeeds (returns a, possibly empty, signal list) if
and only if the input is valid; it errors exactly when a required column is
absent, the frame is empty, a price or volume column is non-numeric, or
volume_multiplier, breakout_days or max_days_old is non-positive, None
being the valid unbounded value for max_days_old. -/
theorem analyze_stock_error_iff (df : Frame) (m : ℚ) (bd : ℕ)
    (mdo : Option ℕ) :
    (∃ sigs, analyze_stock df m bd mdo = .ok sigs) ↔
      ¬ input_invalid df m bd mdo := by
  cases mdo with
  | none =>
    unfold analyze_stock validate_dataframe input_invalid
    split_ifs <;> simp_all
    all_goals tauto
  | some k =>
    unfold analyze_stock validate_dataframe input_invalid
    dsimp only
    split_ifs <;> simp_all
    all_goals tauto

/-- Concrete two-bar frame: with multiplier 1 and lookback 1, bar 1 closes
at 12 above the prior high 10 on volume 200 above the threshold 150, so it
is a breakout. -/
def demo_frame : Frame :=
  { nrows := 2
    high := .numeric [some 10, some 12]
    low := .numeric [some 9, some 11]
    close := .numeric [some 10, some 12]
    volume := .numeric [some 100, some 200]
    dates := some [0, 1] }

/-- C3 witness: on the concrete two-bar series the scan emits a signal at
bar 1, obtained from the characterization with all five values present and
both strict inequalities holding. -/
theorem breakout_signal_iff_witness :
    ∃ s ∈ analyze_signals [some 10, some 12] [some 9, some 11]
        [some 10, some 12] [some 100, some 200] [0, 1] 1 1 2 0, s.idx = 1 :=
  (breakout_signal_iff [some 10, some 12] [some 9, some 11]
      [some 10, some 12] [some 100, some 200] [0, 1] 1 1 1 (by norm_num)
      (by norm_num)).mpr
    ⟨10, 12, 200, 3 / 2, 150, rfl, rfl, rfl,
      by
        have h2 : List.range 2 = [0, 1] := rfl
        norm_num [calculate_atr, DEFAULT_ATR_PERIOD, rollingMeanOne, h2,
          true_range, maxSkipna, cellSub, cellAbsSub, cellAt, shifted,
          List.filterMap_cons, List.filterMap_nil, List.max?, max_def,
          abs_eq_max_neg],
      by
        have h2 : List.range 2 = [0, 1] := rfl
        norm_num [volume_threshold, avg_volume, DEFAULT_VOLUME_PERIOD,
          rollingMeanOne, h2, cellAt, List.filterMap_cons,
          List.filterMap_nil],
      by norm_num, by norm_num⟩

/-- C4 witness: the filter equation at the concrete frame with
max_days_old one. -/
theorem max_days_old_filter_witness :
    analyze_stock demo_frame 1 1 (some 1) =
      (analyze_stock demo_frame 1 1 none).map
        (List.filter (fun s => demo_frame.nrows - 1 ≤ s.idx)) :=
  max_days_old_filter demo_frame 1 1 1 (by norm_num)

/-- C8 witness: the concrete frame is valid, so analyze_stock succeeds on
it. -/
theorem analyze_stock_error_iff_witness :
    ∃ sigs, analyze_stock demo_frame 1 1 none = .ok sigs :=
  (analyze_stock_error_iff demo_frame 1 1 none).mpr
    (by norm_num [input_invalid, demo_frame]; simp)

lemma cellAt_map_some (xs : List ℚ) (i : ℕ) (hi : i < xs.length) :
    cellAt (xs.map some) i = some (xs.getD i 0) := by
  simp [cellAt, List.getD_eq_getElem?_getD, List.getElem?_eq_getElem, hi,
    List.getElem?_map]

lemma maxSkipna_all (x y z : ℚ) :
    maxSkipna (some x) (some y) (some z) = some (max (max x y) z) := rfl

lemma maxSkipna_first (x : ℚ) : maxSkipna (some x) none none = some x := rfl

lemma cellAbsSub_none (a : Cell) : cellAbsSub a none = none := by
  cases a <;> rfl

/-- On a series with every cell present, the true range of the first bar is
high minus low (the previous-close comparisons are skipped as missing) and
of a later bar is the maximum of the three range measures. -/
lemma true_range_map_some (hs ls cs : List ℚ) (j : ℕ) (hj : j < hs.length)
    (hl : ls.length = hs.length) (hc : cs.length = hs.length) :
    true_range (hs.map some) (ls.map some) (cs.map some) j =
      some (if j = 0 then hs.getD 0 0 - ls.getD 0 0
            else max (max (hs.getD j 0 - ls.getD j 0)
                |hs.getD j 0 - cs.getD (j - 1) 0|)
              |ls.getD j 0 - cs.getD (j - 1) 0|) := by
  have h1 : cellSub (cellAt (hs.map some) j) (cellAt (ls.map some) j) =
      some (hs.getD j 0 - ls.getD j 0) := by
    rw [cellAt_map_some hs j hj, cellAt_map_some ls j (by omega)]
    rfl
  by_cases h0 : j = 0
  · subst h0
    have h2 : shifted (cs.map some) 0 = none := rfl
    unfold true_range
    rw [h1, h2, cellAbsSub_none, cellAbsSub_none, maxSkipna_first, if_pos rfl]
  · have h2 : shifted (cs.map some) j = some (cs.getD (j - 1) 0) := by
      unfold shifted
      rw [if_neg h0, cellAt_map_some cs (j - 1) (by omega)]
    have h3 : cellAbsSub (cellAt (hs.map some) j) (shifted (cs.map some) j) =
        some |hs.getD j 0 - cs.getD (j - 1) 0| := by
      rw [cellAt_map_some hs j hj, h2]
      rfl
    have h4 : cellAbsSub (cellAt (ls.map some) j) (shifted (cs.map some) j) =
        some |ls.getD j 0 - cs.getD (j - 1) 0| := by
      rw [cellAt_map_some ls j (by omega), h2]
      rfl
    unfold true_range
    rw [h1, h3, h4, maxSkipna_all, if_neg h0]

lemma filterMap_id_map_some (L : List ℚ) :
    (L.map (some : ℚ → Cell)).filterMap id = L := by
  induction L with
  | nil => rfl
  | cons a l ih => simp [ih]

/-- C7 counterexample: on a one-bar series with high 3, low 1 the code's
true range at the first bar is 3 - 1 = 2, a present value, not missing;
pandas row-wise max skips the two missing previous-close comparisons
instead of propagating them. -/
theorem first_bar_true_range_defined :
    true_range [some 3] [some 1] [some 5] 0 = some 2 ∧
    true_range [some 3] [some 1] [some 5] 0 ≠ none := by
  have h : true_range [some 3] [some 1] [some 5] 0 = some 2 := by
    norm_num [true_range, maxSkipna, cellSub, cellAbsSub, cellAt, shifted,
      List.filterMap_cons, List.filterMap_nil, List.max?]
  exact ⟨h, by rw [h]; exact Option.noConfusion⟩

/-- C7 amended: on an all-present series, the true range of the first bar
equals high minus low (only the previous-close terms are missing, and the
row-wise skipna maximum ignores them), each later bar's true range is
max(high - low, abs(high - prev close), abs(low - prev close)), and the ATR
at each bar is the mean of the true-range values over the trailing window
of min(i+1, 20) bars (partial windows allowed at the series start,
min_periods = 1). -/
theorem true_range_atr_amended (hs ls cs : List ℚ) (i : ℕ)
    (hi : i < hs.length) (hl : ls.length = hs.length)
    (hc : cs.length = hs.length) :
    true_range (hs.map some) (ls.map some) (cs.map some) i =
      some (if i = 0 then hs.getD 0 0 - ls.getD 0 0
            else max (max (hs.getD i 0 - ls.getD i 0)
                |hs.getD i 0 - cs.getD (i - 1) 0|)
              |ls.getD i 0 - cs.getD (i - 1) 0|) ∧
    ∃ trs : List ℚ,
      ((List.range (i + 1)).drop (i + 1 - DEFAULT_ATR_PERIOD)).map
          (true_range (hs.map some) (ls.map some) (cs.map some)) =
        trs.map some ∧
      trs.length = min (i + 1) DEFAULT_ATR_PERIOD ∧
      calculate_atr (hs.map some) (ls.map some) (cs.map some) i =
        some (trs.sum / (trs.length : ℚ)) := by
  refine ⟨true_range_map_some hs ls cs i hi hl hc, ?_⟩
  have hD : DEFAULT_ATR_PERIOD = 20 := rfl
  set window := (List.range (i + 1)).drop (i + 1 - DEFAULT_ATR_PERIOD)
    with hwin
  have hmem : ∀ j ∈ window, j < hs.length := by
    intro j hj
    have hj2 : j ∈ List.range (i + 1) := List.drop_subset _ _ hj
    have := List.mem_range.mp hj2
    omega
  have hwlen : window.length = min (i + 1) DEFAULT_ATR_PERIOD := by
    rw [hwin, List.length_drop, List.length_range]
    omega
  have hmap : window.map
      (true_range (hs.map some) (ls.map some) (cs.map some)) =
      (window.map (fun j =>
        if j = 0 then hs.getD 0 0 - ls.getD 0 0
        else max (max (hs.getD j 0 - ls.getD j 0)
            |hs.getD j 0 - cs.getD (j - 1) 0|)
          |ls.getD j 0 - cs.getD (j - 1) 0|)).map some := by
    rw [List.map_map]
    apply List.map_congr_left
    intro j hj
    simpa using true_range_map_some hs ls cs j (hmem j hj) hl hc
  refine ⟨window.map (fun j =>
      if j = 0 then hs.getD 0 0 - ls.getD 0 0
      else max (max (hs.getD j 0 - ls.getD j 0)
          |hs.getD j 0 - cs.getD (j - 1) 0|)
        |ls.getD j 0 - cs.getD (j - 1) 0|), hmap, ?_, ?_⟩
  · rw [List.length_map, hwlen]
  · unfold calculate_atr rollingMeanOne
    rw [← hwin, hmap, filterMap_id_map_some]
    rw [if_neg (by rw [List.length_map, hwlen, hD]; omega)]

/-- C7 witness: the amended statement evaluated on the two-bar series with
highs 3, 4, lows 1, 2, closes 5, 3 at the second bar. -/
theorem true_range_atr_amended_witness :
    true_range ([3, 4].map some) ([1, 2].map some) ([5, 3].map some) 1 =
      some (if (1 : ℕ) = 0 then
          ([3, 4] : List ℚ).getD 0 0 - ([1, 2] : List ℚ).getD 0 0
        else max (max (([3, 4] : List ℚ).getD 1 0 - ([1, 2] : List ℚ).getD 1 0)
            |([3, 4] : List ℚ).getD 1 0 - ([5, 3] : List ℚ).getD (1 - 1) 0|)
          |([1, 2] : List ℚ).getD 1 0 - ([5, 3] : List ℚ).getD (1 - 1) 0|) :=
  (true_range_atr_amended [3, 4] [1, 2] [5, 3] 1 (by simp) (by simp)
    (by simp)).1

/-- A DataFrame as src/backTesting/analyzer.py sees it: the OHLCV columns,
the dates, and the ATR column slot the function writes into. -/
structure BTFrame where
  high : List Cell
  low : List Cell
  close : List Cell
  volume : List Cell
  dates : List ℤ
  atr_col : Option (List Cell)
deriving DecidableEq

/-- rolling(window = p).mean() with the pandas default min_periods = p:
present only when the window holds p non-missing values. -/
def rollingMeanFull (p : ℕ) (f : ℕ → Cell) (i : ℕ) : Cell :=
  let vals := (((List.range (i + 1)).drop (i + 1 - p)).map f).filterMap id
  if p ≤ vals.length then some (vals.sum / (vals.length : ℚ)) else none

/-- Series.iloc[a:b].max(): skipna maximum over a half-open row slice. -/
def slice_max (xs : List Cell) (a b : ℕ) : Cell :=
  (((xs.take b).drop a).filterMap id).max?

/-- A pandas scalar comparison a < b: False when either side is missing. -/
def cellLt (a b : Cell) : Bool :=
  match a, b with
  | some x, some y => decide (x < y)
  | _, _ => false

/-- NaN-propagating product of a cell with a scalar. -/
def cellMul (a : Cell) (m : ℚ) : Cell := a.map (fun x => x * m)

/-- The ATR column that analyze_stock in src/backTesting/analyzer.py
assigns into the caller's frame (lines 19-23): full-window 20-bar rolling
mean of true range. -/
def bt_atr_col (df : BTFrame) : List Cell :=
  (List.range df.dates.length).map
    (rollingMeanFull 20 (true_range df.high df.low df.close))

/-- A signal dict as built by src/backTesting/analyzer.py. -/
structure SignalBT where
  date : ℤ
  action : String
  price : ℚ
  atr : ℚ
deriving DecidableEq

/-- analyze_stock from src/backTesting/analyzer.py.  The Python function
first assigns the derived ATR column into the caller's DataFrame
(df["ATR"] = ...) and then scans for signals; the embedding returns the
signal list together with the caller's frame as it stands after the call.
A comparison involving a missing value is False, so missing-data bars
yield no signal. -/
def bt_analyze_stock (df : BTFrame) (volume_multiplier : ℚ)
    (breakout_days : ℕ) : List SignalBT × BTFrame :=
  let atr := bt_atr_col df
  let signals := (List.range df.dates.length).filterMap fun i =>
    if i < breakout_days then none
    else
      let high_prev := slice_max df.high (i - breakout_days) i
      let close_today := cellAt df.close i
      let volume_today := cellAt df.volume i
      let atr_today := cellAt atr i
      if cellLt high_prev close_today &&
          cellLt (cellMul (rollingMeanFull 20 (cellAt df.volume) i)
            volume_multiplier) volume_today &&
          atr_today.isSome then
        match close_today, atr_today with
        | some c, some a =>
          some { date := df.dates.getD i 0, action := "BUY", price := c,
                 atr := a }
        | _, _ => none
      else none
  (signals, { df with atr_col := some atr })

/-- Concrete one-bar frame without an ATR column, as a caller would pass
it. -/
def bt_frame : BTFrame :=
  { high := [some 3], low := [some 1], close := [some 5]
    volume := [some 7], dates := [0], atr_col := none }

/-- C10 counterexample: running the backtest detector on a concrete one-bar
frame changes the caller's frame — the ATR column (here a single missing
entry, the 20-bar window being unfilled) has been written into it, so the
input is mutated, refuting the claim that neither detector mutates the
caller's series. -/
theorem bt_analyze_mutates_frame :
    (bt_analyze_stock bt_frame 8 30).2 ≠ bt_frame ∧
    (bt_analyze_stock bt_frame 8 30).2.atr_col = some [none] ∧
    bt_frame.atr_col = none := by
  have h1 : List.range 1 = [0] := rfl
  have h2 : (bt_analyze_stock bt_frame 8 30).2.atr_col = some [none] := by
    show some (bt_atr_col bt_frame) = some [none]
    norm_num [bt_atr_col, bt_frame, h1, rollingMeanFull, true_range,
      maxSkipna, cellSub, cellAbsSub, cellAt, shifted, List.filterMap_cons,
      List.filterMap_nil, List.max?]
  refine ⟨?_, h2, rfl⟩
  intro h
  rw [h] at h2
  exact Option.noConfusion h2

/-- C10 amended: the position simulator and the consolidated detector
(src/analyzer.py, which works on a copy) leave the caller's series
unchanged, but the backtest detector (src/backTesting/analyzer.py) writes
the derived ATR column into the caller's frame; that mutation is limited to
the ATR column — the price, volume and date data of the caller's frame are
untouched. -/
theorem bt_analyze_frame_effect (df : BTFrame) (m : ℚ) (bd : ℕ) :
    (bt_analyze_stock df m bd).2.high = df.high ∧
    (bt_analyze_stock df m bd).2.low = df.low ∧
    (bt_analyze_stock df m bd).2.close = df.close ∧
    (bt_analyze_stock df m bd).2.volume = df.volume ∧
    (bt_analyze_stock df m bd).2.dates = df.dates ∧
    (bt_analyze_stock df m bd).2.atr_col = some (bt_atr_col df) :=
  ⟨rfl, rfl, rfl, rfl, rfl, rfl⟩

end StockScanner
